import Mathlib

/-!
Verification of the aseprite-dmi boundary layer (`src/lib/src/lua.rs`).

The Rust file manipulates DMI icon containers (PNG-like chunked files).
We embed the relevant operations shallowly: byte buffers are `List Nat`
(one `Nat` per `u8`), fallible Rust paths are `Except`/`Option`, and Rust
panics (slice out of range, `unreachable!()`, arithmetic underflow on
`usize`) are modelled by an explicit `panic` outcome.
-/

namespace DmiMod

/-- A file's bytes: one natural number per `u8`. -/
abbrev Bytes := List Nat

/-- `slice data a b` models the Rust slice `&data[a..b]` (value only; range
checks are done by callers where the Rust code could panic). -/
def slice (data : Bytes) (a b : Nat) : Bytes :=
  (data.drop a).take (b - a)

/-- Checked `usize` subtraction: `none` models the panic on underflow of
`a - b` in the Rust expression `data.len() - 8`. -/
def checkedSub (a b : Nat) : Option Nat :=
  if b ≤ a then some (a - b) else none

/-- Big-endian `u32` read at offset `i`, as in
`((data[i] as u32) << 24) | ... | (data[i+3] as u32)` (no overflow is
possible for byte inputs, so plain `Nat` arithmetic is exact). -/
def beU32 (data : Bytes) (i : Nat) : Nat :=
  data.getD i 0 * 16777216 + data.getD (i+1) 0 * 65536 +
  data.getD (i+2) 0 * 256 + data.getD (i+3) 0

/-- The 4 tag bytes of `zTXt`. -/
def tagZTXt : Bytes := [122, 84, 88, 116]

/-- The 4 tag bytes of `IDAT`. -/
def tagIDAT : Bytes := [73, 68, 65, 84]

/-- The signature scan used by `merge_spritesheet`:
`for i in 0..bound { if &data[i+4..i+8] == tag { ... break } }`, i.e. the
first index `i < bound` whose window `data[i+4..i+8]` equals `tag`. -/
def findSig (data tag : Bytes) (bound : Nat) : Option Nat :=
  (List.range bound).find? fun i => slice data (i+4) (i+8) = tag

/-- Outcome of `merge_spritesheet` after both files were read:
`ok` with the written output bytes, `err` with the `LuaError` message, or
`panic` (process abort: subtraction underflow or slice out of range). -/
inductive MergeResult where
  | ok (out : Bytes)
  | err (msg : String)
  | panic
deriving DecidableEq, Repr

/-- `merge_spritesheet` from `src/lib/src/lua.rs` (lines 44-119), after the
two `std::fs::read` calls succeeded: scan the DMI bytes for the `zTXt`
signature, slice the chunk out using its declared big-endian length
(`length + 12` total bytes; the slice panics when it runs past the end of
the buffer), scan the PNG bytes for the `IDAT` signature, and emit
`png[0..idat_pos] ++ ztxt_chunk ++ png[idat_pos..]`. -/
def merge_spritesheet (pngData dmiData : Bytes) : MergeResult :=
  match checkedSub dmiData.length 8 with
  | none => .panic
  | some dmiBound =>
    match findSig dmiData tagZTXt dmiBound with
    | none => .err "Could not find DMI metadata in the file"
    | some pos =>
      if pos + (beU32 dmiData pos + 12) ≤ dmiData.length then
        match checkedSub pngData.length 8 with
        | none => .panic
        | some pngBound =>
          match findSig pngData tagIDAT pngBound with
          | none => .err "Could not find IDAT chunk in PNG file"
          | some idatPos =>
            .ok (pngData.take idatPos ++
                 slice dmiData pos (pos + (beU32 dmiData pos + 12)) ++
                 pngData.drop idatPos)
      else .panic

/-- Result of the spec's `find_chunk`. -/
inductive FindResult where
  | found (offset totalLen : Nat)
  | notFound
  | truncatedChunk
deriving DecidableEq, Repr

/-- Structural chunk walk, fuelled (each step advances by at least 12
bytes, so `data.length` steps always suffice). -/
def findChunkAux (data tag : Bytes) : Nat → Nat → FindResult
  | 0, _ => .notFound
  | fuel+1, off =>
    if off ≥ data.length then .notFound
    else if off + 8 > data.length then .truncatedChunk
    else
      let total := beU32 data off + 12
      if slice data (off+4) (off+8) = tag then
        if off + total ≤ data.length then .found off total else .truncatedChunk
      else if off + total ≤ data.length then findChunkAux data tag fuel (off + total)
      else .truncatedChunk

/-- Modelled from the spec: `ChunkCodec.find_chunk` (§4.1), which is not
implemented under `src/` — the spec prescribes that chunk location "scans
the container strictly chunk-by-chunk — reading each chunk's declared
length field first and advancing exactly `length +
fixed_header_and_checksum_size` bytes — never by scanning for a byte
signature inside payload data", starting after the 8-byte container
signature, and "fails with `FormatError::TruncatedChunk` if a declared
length would read past the end of the buffer". -/
def find_chunk (data tag : Bytes) : FindResult :=
  findChunkAux data tag data.length 8

/-! ## `remove_dir` (lines 269-281)

The directory state a path can be in, as observed through `Path::is_dir`
and `read_dir`: either not an existing directory, or a directory with a
(possibly empty) list of entries.  `remove_dir_all` and `fs::remove_dir`
turn the directory into `notDir`. -/

inductive DirState where
  | notDir
  | dir (entries : List String)
deriving DecidableEq, Repr

/-- `remove_dir(path, soft)`: returns the directory state after the call
together with `true` for the `Ok(LuaValue::Nil)` result.  Mirrors
`if path.is_dir() { if !soft { remove_dir_all(path)? } else if
read_dir(path)?.next().is_none() { fs::remove_dir(path)? } }` with the
filesystem primitives modelled as succeeding on an existing directory. -/
def remove_dir (st : DirState) (soft : Bool) : DirState × Bool :=
  match st with
  | .notDir => (.notDir, true)
  | .dir entries =>
    if !soft then (.notDir, true)
    else if entries.isEmpty then (.notDir, true)
    else (.dir entries, true)

/-! ## `check_update` (lines 317-325)

`check_latest_version` lives in `crate::utils` (not under `src/`); its
result — an `Ordering` of installed vs latest on success, or any error —
is taken as the parameter. -/

/-- `check_update`: `if let Ok(Ordering::Less) = version { return Ok(true) }
Ok(false)`. -/
def check_update (version : Except String Ordering) : Bool :=
  match version with
  | .ok .lt => true
  | _ => false

/-! ## `resize` filter-name match (lines 196-203) -/

/-- `image::imageops::FilterType`, the named filter enumeration. -/
inductive FilterType where
  | nearest | triangle | catmullRom | gaussian | lanczos3
deriving DecidableEq, Repr

/-- The `match method.as_str()` in `resize`; `none` models the
`_ => unreachable!()` branch, which aborts the process. -/
def parseFilterMethod (method : String) : Option FilterType :=
  match method with
  | "nearest" => some .nearest
  | "triangle" => some .triangle
  | "catmullrom" => some .catmullRom
  | "gaussian" => some .gaussian
  | "lanczos3" => some .lanczos3
  | _ => none

/-! ## IconDocument transforms (`crate::dmi`, drivers at lines 189-238)

`Dmi::resize`, `Dmi::crop` and `Dmi::expand` live in `crate::dmi`, which is
not under `src/`; they are modelled from the spec (§3, §4.4). -/

/-- A frame tile: a pixel grid; pixel value `0` is fully transparent. -/
structure Tile where
  width : Nat
  height : Nat
  pix : Nat → Nat → Nat

/-- Modelled from the spec: a `State` (§3) — metadata fields plus the
fully populated frame-tile grid (flattened, direction-major). -/
structure State where
  name : String
  dirs : Nat
  frame_count : Nat
  delays : List Rat
  loop_ : Nat
  rewind : Bool
  movement : Bool
  hotspots : List String
  frames : List Tile

/-- Modelled from the spec: an `IconDocument` / `Dmi` (§3) — name, the
per-frame canvas size, and the ordered state list. -/
structure Dmi where
  name : String
  width : Nat
  height : Nat
  states : List State

/-- Nearest-style resampling of one tile to `w × h` (the exact pixel math
belongs to the external imaging library per spec §1; only the tile size
and the fact that pixels alone change matter here). -/
def resampleTile (w h : Nat) (t : Tile) : Tile :=
  { width := w, height := h,
    pix := fun x y => t.pix (x * t.width / w) (y * t.height / h) }

/-- Crop of one tile to the window `[x, x+w) × [y, y+h)`; pixels outside
the original bounds are fully transparent. -/
def cropTile (x y w h : Nat) (t : Tile) : Tile :=
  { width := w, height := h,
    pix := fun u v =>
      if x + u < t.width ∧ y + v < t.height then t.pix (x + u) (y + v) else 0 }

/-- Placement of one tile onto a fresh transparent `w × h` canvas at
offset `(x, y)`; content outside the new canvas is discarded. -/
def expandTile (x y w h : Nat) (t : Tile) : Tile :=
  { width := w, height := h,
    pix := fun u v =>
      if x ≤ u ∧ y ≤ v ∧ u - x < t.width ∧ v - y < t.height then
        t.pix (u - x) (v - y)
      else 0 }

/-- Modelled from the spec: `Dmi::resize` (§4.4) — every frame tile of
every state is independently resampled to `new_width × new_height` with
the supplied filter; canvas size is updated; no metadata field changes. -/
def Dmi.resize (d : Dmi) (w h : Nat) (_f : FilterType) : Dmi :=
  { d with
    width := w
    height := h
    states := d.states.map fun s =>
      { s with frames := s.frames.map (resampleTile w h) } }

/-- Modelled from the spec: `Dmi::crop` (§4.4) — every frame tile is
replaced by the sub-rectangle `[x, x+w) × [y, y+h)`; canvas becomes
`w × h`; no metadata field changes. -/
def Dmi.crop (d : Dmi) (x y w h : Nat) : Dmi :=
  { d with
    width := w
    height := h
    states := d.states.map fun s =>
      { s with frames := s.frames.map (cropTile x y w h) } }

/-- Modelled from the spec: `Dmi::expand` (§4.4) — every frame tile is
placed onto a new `w × h` transparent canvas at offset `(x, y)`; no
metadata field changes. -/
def Dmi.expand (d : Dmi) (x y w h : Nat) : Dmi :=
  { d with
    width := w
    height := h
    states := d.states.map fun s =>
      { s with frames := s.frames.map (expandTile x y w h) } }

/-- The metadata projection of a state: everything except pixel data. -/
def stateMeta (s : State) :
    String × Nat × Nat × List Rat × Nat × Bool × Bool × List String :=
  (s.name, s.dirs, s.frame_count, s.delays, s.loop_, s.rewind, s.movement,
   s.hotspots)

/-- The `resize` Lua entry point (lines 189-210) restricted to the
filter-name dispatch: `none` models the process abort through
`unreachable!()` before any transform runs. -/
def resize_entry (d : Dmi) (w h : Nat) (method : String) : Option Dmi :=
  match parseFilterMethod method with
  | some f => some (d.resize w h f)
  | none => none

/-! ## `paste_state` (lines 175-187) and the clipboard envelope

The envelope deserialization (`serde_json::from_str::<ClipboardState>` and
the `ClipboardState` type in `crate::dmi`) is not under `src/`; it is
modelled from the spec (§4.6): a self-describing text block carrying the
state's fields and inline pixel bytes, whose decode "fails with
`FormatError::InvalidEnvelope` on malformed or foreign clipboard content
(must not crash on arbitrary clipboard text from unrelated
applications)".  Clipboard text is a character list. -/

/-- Modelled from the spec: the decoded `ClipboardState` payload — state
metadata plus inline frame pixel bytes (§4.6, §3). -/
structure ClipboardState where
  name : String
  dirs : Nat
  frame_count : Nat
  pixels : List Nat
deriving DecidableEq, Repr

/-- Split a character list on a separator character. -/
def splitOnChar (c : Char) : List Char → List (List Char)
  | [] => [[]]
  | x :: xs =>
    match splitOnChar c xs with
    | [] => if x = c then [[], []] else [[x]]
    | y :: ys => if x = c then [] :: y :: ys else (x :: y) :: ys

/-- Decimal digit value of a character, if it is a digit. -/
def digitVal (c : Char) : Option Nat :=
  if 48 ≤ c.toNat ∧ c.toNat ≤ 57 then some (c.toNat - 48) else none

/-- Parse a nonempty all-digit character list as a natural number. -/
def parseNatChars (cs : List Char) : Option Nat :=
  match cs with
  | [] => none
  | _ =>
    cs.foldl
      (fun acc c => match acc, digitVal c with
        | some a, some d => some (a * 10 + d)
        | _, _ => none)
      (some 0)

/-- Strip an expected key prefix off a line, returning the remainder. -/
def stripKey : List Char → List Char → Option (List Char)
  | [], rest => some rest
  | k :: ks, c :: cs => if c = k then stripKey ks cs else none
  | _ :: _, [] => none

/-- The error paths of `paste_state`: missing temp directory, a clipboard
or serialization failure from a collaborator, or a malformed envelope. -/
inductive PasteError where
  | tempMissing
  | external (msg : String)
  | invalidEnvelope
deriving DecidableEq, Repr

/-- Modelled from the spec: `ClipboardCodec.decode`'s envelope parse
(§4.6).  The envelope is the line-oriented text block
`DMISTATE\nname=...\ndirs=<nat>\nframes=<nat>\npixels=<nat,...,nat>`;
anything else — in particular arbitrary text from unrelated applications —
is rejected (`none`, mapped to the invalid-envelope error by the caller,
as the Rust `?` conversion does).  Total by construction: there is no
panicking path. -/
def decodeEnvelope (text : List Char) : Option ClipboardState :=
  match splitOnChar (Char.ofNat 10) text with
  | [hd, l1, l2, l3, l4] =>
    if hd = ['D', 'M', 'I', 'S', 'T', 'A', 'T', 'E'] then
      match stripKey ['n', 'a', 'm', 'e', '='] l1,
            stripKey ['d', 'i', 'r', 's', '='] l2,
            stripKey ['f', 'r', 'a', 'm', 'e', 's', '='] l3,
            stripKey ['p', 'i', 'x', 'e', 'l', 's', '='] l4 with
      | some nm, some ds, some fs, some ps =>
        match parseNatChars ds, parseNatChars fs,
              (splitOnChar ',' ps).mapM parseNatChars with
        | some d, some f, some px =>
          some { name := String.mk nm, dirs := d, frame_count := f, pixels := px }
        | _, _, _ => none
      | _, _, _, _ => none
    else none
  | _ => none

/-- `true` when the clipboard text is a well-formed state envelope. -/
def envelopeOk (text : List Char) : Bool :=
  (decodeEnvelope text).isSome

/-- `paste_state` (lines 175-187): temp-directory check, clipboard read
(the collaborator's result is the `clip` parameter), then the envelope
parse; every failure is returned to the caller with `?`. -/
def paste_state (tempExists : Bool) (clip : Except String (List Char)) :
    Except PasteError ClipboardState :=
  if !tempExists then .error .tempMissing
  else
    match clip with
    | .error e => .error (.external e)
    | .ok text =>
      match decodeEnvelope text with
      | some st => .ok st
      | none => .error .invalidEnvelope

/-! ## Lua-table marshalling (lines 341-438)

A Lua table is modelled as an association list from string keys to typed
values; `table.set` appends a binding and `table.get::<T>` looks the key
up and projects the expected type, failing otherwise (as `mlua` does). -/

/-- The Lua values the marshalling layer stores: strings, `u32` numbers,
booleans, `Vec<f32>` (stored verbatim, represented by rationals),
`Vec<String>`, and arrays of nested tables. -/
inductive LuaVal where
  | str (s : String)
  | num (n : Nat)
  | boolean (b : Bool)
  | numList (ds : List Rat)
  | strList (ss : List String)
  | tblList (ts : List (List (String × LuaVal)))

/-- A Lua table: an association list of fields. -/
abbrev LuaTable := List (String × LuaVal)

/-- `table.set(k, v)` on a freshly created table (keys are distinct). -/
def tset (t : LuaTable) (k : String) (v : LuaVal) : LuaTable :=
  t ++ [(k, v)]

/-- `table.get::<String>(k)`. -/
def tgetStr (t : LuaTable) (k : String) : Except String String :=
  match t.lookup k with
  | some (.str s) => .ok s
  | _ => .error k

/-- `table.get::<u32>(k)`. -/
def tgetNum (t : LuaTable) (k : String) : Except String Nat :=
  match t.lookup k with
  | some (.num n) => .ok n
  | _ => .error k

/-- `table.get::<bool>(k)`. -/
def tgetBool (t : LuaTable) (k : String) : Except String Bool :=
  match t.lookup k with
  | some (.boolean b) => .ok b
  | _ => .error k

/-- `table.get::<Vec<f32>>(k)`. -/
def tgetNumList (t : LuaTable) (k : String) : Except String (List Rat) :=
  match t.lookup k with
  | some (.numList ds) => .ok ds
  | _ => .error k

/-- `table.get::<Vec<String>>(k)`. -/
def tgetStrList (t : LuaTable) (k : String) : Except String (List String) :=
  match t.lookup k with
  | some (.strList ss) => .ok ss
  | _ => .error k

/-- `table.get::<Vec<LuaTable>>(k)`. -/
def tgetTblList (t : LuaTable) (k : String) : Except String (List LuaTable) :=
  match t.lookup k with
  | some (.tblList ts) => .ok ts
  | _ => .error k

/-- `SerializedState` (fields as read/written by the marshalling impls;
`Vec<f32>` delays represented by rationals, stored verbatim). -/
structure SerializedState where
  name : String
  dirs : Nat
  frame_key : String
  frame_count : Nat
  delays : List Rat
  loop_ : Nat
  rewind : Bool
  movement : Bool
  hotspots : List String
deriving DecidableEq, Repr

/-- `SerializedDmi` (fields as read/written by the marshalling impls). -/
structure SerializedDmi where
  name : String
  width : Nat
  height : Nat
  states : List SerializedState
  temp : String
deriving DecidableEq, Repr

/-- `impl IntoLuaTable for SerializedState` (lines 350-366). -/
def SerializedState.into_lua_table (s : SerializedState) : LuaTable :=
  tset (tset (tset (tset (tset (tset (tset (tset (tset []
    "name" (.str s.name))
    "dirs" (.num s.dirs))
    "frame_key" (.str s.frame_key))
    "frame_count" (.num s.frame_count))
    "delays" (.numList s.delays))
    "loop" (.num s.loop_))
    "rewind" (.boolean s.rewind))
    "movement" (.boolean s.movement))
    "hotspots" (.strList s.hotspots)

/-- `impl IntoLuaTable for SerializedDmi` (lines 368-386). -/
def SerializedDmi.into_lua_table (d : SerializedDmi) : LuaTable :=
  tset (tset (tset (tset (tset []
    "name" (.str d.name))
    "width" (.num d.width))
    "height" (.num d.height))
    "states" (.tblList (d.states.map SerializedState.into_lua_table)))
    "temp" (.str d.temp)

/-- `impl FromLuaTable for SerializedState` (lines 388-413). -/
def SerializedState.from_lua_table (t : LuaTable) :
    Except String SerializedState := do
  let name ← tgetStr t "name"
  let dirs ← tgetNum t "dirs"
  let frame_key ← tgetStr t "frame_key"
  let frame_count ← tgetNum t "frame_count"
  let delays ← tgetNumList t "delays"
  let loop_ ← tgetNum t "loop"
  let rewind ← tgetBool t "rewind"
  let movement ← tgetBool t "movement"
  let hotspots ← tgetStrList t "hotspots"
  pure { name := name, dirs := dirs, frame_key := frame_key,
         frame_count := frame_count, delays := delays, loop_ := loop_,
         rewind := rewind, movement := movement, hotspots := hotspots }

/-- `impl FromLuaTable for SerializedDmi` (lines 415-438). -/
def SerializedDmi.from_lua_table (t : LuaTable) :
    Except String SerializedDmi := do
  let name ← tgetStr t "name"
  let width ← tgetNum t "width"
  let height ← tgetNum t "height"
  let states_table ← tgetTblList t "states"
  let temp ← tgetStr t "temp"
  let states ← states_table.mapM SerializedState.from_lua_table
  pure { name := name, width := width, height := height,
         states := states, temp := temp }

/-! ## Concrete byte buffers used in the theorems -/

/-- A DMI container whose first chunk (`AAAA`, length 8) has a payload
beginning with the `zTXt` tag bytes, followed by the real (empty) `zTXt`
chunk at offset 28. -/
def dmiFalseMatch : Bytes :=
  [137, 80, 78, 71, 13, 10, 26, 10] ++
  [0, 0, 0, 8] ++ [65, 65, 65, 65] ++
  [122, 84, 88, 116, 0, 0, 0, 0] ++ [0, 0, 0, 0] ++
  [0, 0, 0, 0] ++ [122, 84, 88, 116] ++ [0, 0, 0, 0]

/-- A DMI container whose `zTXt` chunk at offset 8 declares length 16,
extending well past the end of the 17-byte buffer. -/
def dmiTruncated : Bytes :=
  [137, 80, 78, 71, 13, 10, 26, 10] ++ [0, 0, 0, 16] ++ [122, 84, 88, 116] ++ [1]

/-- A PNG whose first chunk (`AAAA`, length 8) has a payload beginning
with the `IDAT` tag bytes, followed by the real (empty) `IDAT` chunk at
offset 28. -/
def pngFalseMatch : Bytes :=
  [137, 80, 78, 71, 13, 10, 26, 10] ++
  [0, 0, 0, 8] ++ [65, 65, 65, 65] ++
  [73, 68, 65, 84, 0, 0, 0, 0] ++ [0, 0, 0, 0] ++
  [0, 0, 0, 0] ++ [73, 68, 65, 84] ++ [0, 0, 0, 0]

/-- A clean 20-byte DMI container: 8-byte signature, then one empty `zTXt`
chunk at offset 8. -/
def dmiClean : Bytes :=
  [137, 80, 78, 71, 13, 10, 26, 10] ++ [0, 0, 0, 0] ++ [122, 84, 88, 116] ++ [0, 0, 0, 0]

/-- A clean 20-byte PNG: 8-byte signature, then one empty `IDAT` chunk at
offset 8. -/
def pngClean : Bytes :=
  [137, 80, 78, 71, 13, 10, 26, 10] ++ [0, 0, 0, 0] ++ [73, 68, 65, 84] ++ [0, 0, 0, 0]

/-- A 12-byte buffer with no `zTXt` signature anywhere. -/
def dmiNoMeta : Bytes := List.replicate 12 0

/-! ## Theorems -/

/-- C1: the chunk-locating scan used by `merge_spritesheet` DOES return a
false match when a payload contains the `zTXt` tag bytes: on
`dmiFalseMatch` it returns offset 12 (inside the first chunk's payload),
while the spec's structural length-walking `find_chunk` returns the real
chunk at offset 28.  This exhibits the code bug the claim rules out. -/
theorem scan_returns_false_signature_match :
    findSig dmiFalseMatch tagZTXt (dmiFalseMatch.length - 8) = some 12 ∧
    find_chunk dmiFalseMatch tagZTXt = .found 28 12 ∧
    (12 : Nat) ≠ 28 := by
  decide

/-- C2: on a container whose located `zTXt` chunk declares a length
running past the end of the buffer, `merge_spritesheet` panics at the
chunk slice (process abort), whereas the spec's `find_chunk` reports the
typed `FormatError::TruncatedChunk`.  This exhibits the code bug the
claim rules out. -/
theorem truncated_declared_length_panics :
    merge_spritesheet [] dmiTruncated = .panic ∧
    find_chunk dmiTruncated tagZTXt = .truncatedChunk := by
  decide

/-- C4: `remove_dir` on a path that is not an existing directory succeeds
as a no-op; with `soft = false` it deletes the directory and all contents
unconditionally; with `soft = true` it deletes the directory only when it
is empty and otherwise leaves it (and every contained artifact)
untouched, still succeeding. -/
theorem remove_dir_spec (entries : List String) (soft : Bool) :
    remove_dir .notDir soft = (.notDir, true) ∧
    remove_dir (.dir entries) false = (.notDir, true) ∧
    remove_dir (.dir entries) true =
      (if entries.isEmpty then DirState.notDir else .dir entries, true) := by
  refine ⟨rfl, rfl, ?_⟩
  cases entries <;> simp [remove_dir]

/-- C5: `check_update` returns `true` exactly when the version comparison
succeeded with `Ordering::Less`; every other outcome — any error included
— yields `false`, and no error is ever propagated (the result type is a
plain `Bool`). -/
theorem check_update_spec (version : Except String Ordering) :
    check_update version = true ↔ version = .ok .lt := by
  cases version with
  | error e => simp [check_update]
  | ok o => cases o <;> simp [check_update]

/-- C8: the filter-name match in `resize` takes its `unreachable!()`
branch (modelled by `none`, a process abort before any typed error can be
returned) on the caller-supplied string "bicubic", which is outside the
named enumeration.  This exhibits the code bug the claim rules out. -/
theorem resize_aborts_on_unknown_filter :
    parseFilterMethod "bicubic" = none ∧
    resize_entry { name := "icon", width := 32, height := 32, states := [] }
      64 64 "bicubic" = none := by
  exact ⟨rfl, rfl⟩

/-- Helper: `checkedSub` succeeds exactly below the minuend. -/
theorem checkedSub_of_le {a b : Nat} (h : b ≤ a) : checkedSub a b = some (a - b) := by
  simp [checkedSub, h]

/-- Helper: `checkedSub` underflows when the subtrahend is larger. -/
theorem checkedSub_of_lt {a b : Nat} (h : a < b) : checkedSub a b = none := by
  simp [checkedSub]
  omega

/-- Helper: a signature scan with bound `0` finds nothing. -/
theorem findSig_zero (data tag : Bytes) : findSig data tag 0 = none := rfl

/-- C6: any clipboard text that is not a well-formed state envelope —
arbitrary text from unrelated applications included — makes `paste_state`
return the typed invalid-envelope error to the caller; no input makes it
crash (the decode is total). -/
theorem paste_rejects_foreign_clipboard (text : List Char)
    (h : envelopeOk text = false) :
    paste_state true (.ok text) = .error .invalidEnvelope := by
  rw [envelopeOk] at h
  cases hd : decodeEnvelope text with
  | none => simp [paste_state, hd]
  | some st => rw [hd] at h; simp at h

/-- C6 witness: the foreign clipboard text "hello" is rejected with the
invalid-envelope error. -/
theorem paste_rejects_foreign_clipboard_witness :
    envelopeOk ['h', 'e', 'l', 'l', 'o'] = false ∧
    paste_state true (.ok ['h', 'e', 'l', 'l', 'o']) = .error .invalidEnvelope :=
  ⟨by decide, paste_rejects_foreign_clipboard ['h', 'e', 'l', 'l', 'o'] (by decide)⟩

/-- Helper: mapping any per-tile function over every state's frames
leaves the metadata projection of every state unchanged. -/
theorem map_frames_preserves_meta (ss : List State) (g : Tile → Tile) :
    (ss.map fun s => { s with frames := s.frames.map g }).map stateMeta =
      ss.map stateMeta := by
  induction ss with
  | nil => rfl
  | cons a t ih =>
    simp only [List.map_cons, ih]
    rfl

/-- C7: `resize`, `crop` and `expand` leave every state's name,
direction count, frame count, delays, loop, rewind, movement and hotspot
fields unchanged; only the frame tiles and the canvas dimensions
change. -/
theorem transforms_preserve_state_metadata (d : Dmi) (x y w h w2 h2 : Nat)
    (f : FilterType) :
    ((d.resize w2 h2 f).states.map stateMeta = d.states.map stateMeta ∧
      (d.resize w2 h2 f).width = w2 ∧ (d.resize w2 h2 f).height = h2) ∧
    ((d.crop x y w h).states.map stateMeta = d.states.map stateMeta ∧
      (d.crop x y w h).width = w ∧ (d.crop x y w h).height = h) ∧
    ((d.expand x y w h).states.map stateMeta = d.states.map stateMeta ∧
      (d.expand x y w h).width = w ∧ (d.expand x y w h).height = h) :=
  ⟨⟨map_frames_preserves_meta d.states _, rfl, rfl⟩,
   ⟨map_frames_preserves_meta d.states _, rfl, rfl⟩,
   ⟨map_frames_preserves_meta d.states _, rfl, rfl⟩⟩

/-- Helper: one `SerializedState` Lua round trip, by computation. -/
theorem state_round_trip (s : SerializedState) :
    SerializedState.from_lua_table s.into_lua_table = .ok s := rfl

/-- Helper: the state list round-trips through its table list. -/
theorem states_round_trip (ss : List SerializedState) :
    (ss.map SerializedState.into_lua_table).mapM SerializedState.from_lua_table
      = Except.ok ss := by
  induction ss with
  | nil => rfl
  | cons s t ih =>
    rw [List.map_cons, List.mapM_cons, state_round_trip, ih]
    rfl

/-- C9: converting a `SerializedState` to a Lua table and back yields the
same value field-for-field, and likewise for a `SerializedDmi`, its
ordered state list and temp path included: the marshalling round-trips
losslessly. -/
theorem lua_table_round_trip (s : SerializedState) (d : SerializedDmi) :
    SerializedState.from_lua_table s.into_lua_table = .ok s ∧
    SerializedDmi.from_lua_table d.into_lua_table = .ok d := by
  refine ⟨state_round_trip s, ?_⟩
  have e1 : SerializedDmi.from_lua_table d.into_lua_table =
      ((d.states.map SerializedState.into_lua_table).mapM
        SerializedState.from_lua_table) >>= fun states =>
        pure { name := d.name, width := d.width, height := d.height,
               states := states, temp := d.temp } := rfl
  rw [e1, states_round_trip d.states]
  rfl

/-- C3 counterexample: merging with an edited raster whose first chunk's
payload starts with the `IDAT` tag bytes succeeds but splices the
metadata chunk at offset 12 — inside that payload — although the first
pixel-data chunk (by structural walk) is at offset 28; the output is not
the raster split at the first pixel-data chunk. -/
theorem merge_inserts_inside_payload :
    merge_spritesheet pngFalseMatch dmiClean =
      .ok (pngFalseMatch.take 12 ++ slice dmiClean 8 20 ++
           pngFalseMatch.drop 12) ∧
    find_chunk pngFalseMatch tagIDAT = .found 28 12 ∧
    pngFalseMatch.take 12 ++ slice dmiClean 8 20 ++ pngFalseMatch.drop 12 ≠
      pngFalseMatch.take 28 ++ slice dmiClean 8 20 ++ pngFalseMatch.drop 28 := by
  decide

/-- C3 (amended): every successful merge emits exactly the edited
raster's bytes up to the first occurrence of the `IDAT` signature, then
the original's located metadata chunk byte-for-byte unchanged, then the
remainder of the raster unchanged. -/
theorem merge_splice_structure (png dmi out : Bytes)
    (h : merge_spritesheet png dmi = .ok out) :
    ∃ pos idatPos,
      findSig dmi tagZTXt (dmi.length - 8) = some pos ∧
      findSig png tagIDAT (png.length - 8) = some idatPos ∧
      out = png.take idatPos ++
            slice dmi pos (pos + (beU32 dmi pos + 12)) ++
            png.drop idatPos := by
  unfold merge_spritesheet at h
  split at h
  · exact absurd h (by simp)
  next dmiBound h1 =>
    have hb1 : dmiBound = dmi.length - 8 := by
      rw [checkedSub] at h1
      split at h1
      · exact (Option.some.inj h1).symm
      · exact absurd h1 (by simp)
    split at h
    · exact absurd h (by simp)
    next pos h2 =>
      split at h
      · split at h
        · exact absurd h (by simp)
        next pngBound h4 =>
          have hb2 : pngBound = png.length - 8 := by
            rw [checkedSub] at h4
            split at h4
            · exact (Option.some.inj h4).symm
            · exact absurd h4 (by simp)
          split at h
          · exact absurd h (by simp)
          next idatPos h5 =>
            refine ⟨pos, idatPos, ?_, ?_, ?_⟩
            · rw [← hb1]; exact h2
            · rw [← hb2]; exact h5
            · exact (MergeResult.ok.inj h).symm
      · exact absurd h (by simp)

/-- C3 witness: a clean merge of `pngClean` with `dmiClean` splits the
raster at offset 8 around the unchanged metadata chunk. -/
theorem merge_splice_structure_witness :
    ∃ pos idatPos,
      findSig dmiClean tagZTXt (dmiClean.length - 8) = some pos ∧
      findSig pngClean tagIDAT (pngClean.length - 8) = some idatPos ∧
      pngClean.take 8 ++ slice dmiClean 8 20 ++ pngClean.drop 8 =
        pngClean.take idatPos ++
          slice dmiClean pos (pos + (beU32 dmiClean pos + 12)) ++
          pngClean.drop idatPos :=
  merge_splice_structure pngClean dmiClean
    (pngClean.take 8 ++ slice dmiClean 8 20 ++ pngClean.drop 8) (by decide)

/-- C10 counterexample: with an edited raster of only 3 bytes but an
original container that merely lacks a `zTXt` signature, the operation
returns the typed metadata error — it does not abort — so a short
edited-raster input alone does not force an abort. -/
theorem short_raster_without_abort :
    ([1, 2, 3] : Bytes).length < 8 ∧
    merge_spritesheet [1, 2, 3] dmiNoMeta =
      .err "Could not find DMI metadata in the file" ∧
    merge_spritesheet [1, 2, 3] dmiNoMeta ≠ .panic := by
  decide

/-- C10 (amended): an original container shorter than 8 bytes always
aborts the merge (the `len - 8` loop bound underflows); an edited raster
shorter than 8 bytes aborts the merge whenever the `zTXt` signature scan
located a match on the original — the raster's loop bound underflows when
the located chunk is in bounds, and the chunk slice itself aborts when it
is not — while a typed error is returned only when no `zTXt` signature is
found at all; with both inputs at least 8 bytes the scans never abort. -/
theorem merge_requires_eight_bytes (png dmi : Bytes) :
    (dmi.length < 8 → merge_spritesheet png dmi = .panic) ∧
    (png.length < 8 →
      ∀ pos, findSig dmi tagZTXt (dmi.length - 8) = some pos →
        merge_spritesheet png dmi = .panic) ∧
    (8 ≤ dmi.length → findSig dmi tagZTXt (dmi.length - 8) = none →
      merge_spritesheet png dmi = .err "Could not find DMI metadata in the file") ∧
    (8 ≤ dmi.length → 8 ≤ png.length →
      (∀ pos, findSig dmi tagZTXt (dmi.length - 8) = some pos →
        pos + (beU32 dmi pos + 12) ≤ dmi.length) →
      merge_spritesheet png dmi ≠ .panic) := by
  refine ⟨?_, ?_, ?_, ?_⟩
  · intro hlt
    unfold merge_spritesheet
    rw [checkedSub_of_lt hlt]
  · intro hpng pos hfind
    by_cases hd : 8 ≤ dmi.length
    · unfold merge_spritesheet
      simp only [checkedSub_of_le hd, hfind]
      by_cases hbound : pos + (beU32 dmi pos + 12) ≤ dmi.length
      · rw [if_pos hbound, checkedSub_of_lt hpng]
      · rw [if_neg hbound]
    · exfalso
      have : dmi.length - 8 = 0 := by omega
      rw [this, findSig_zero] at hfind
      exact absurd hfind (by simp)
  · intro hd hnone
    unfold merge_spritesheet
    simp only [checkedSub_of_le hd, hnone]
  · intro hd hp hall
    unfold merge_spritesheet
    cases hfind : findSig dmi tagZTXt (dmi.length - 8) with
    | none => simp [checkedSub_of_le hd, hfind]
    | some pos =>
      have hb := hall pos hfind
      cases hfind2 : findSig png tagIDAT (png.length - 8) with
      | none => simp [checkedSub_of_le hd, hfind, hb, checkedSub_of_le hp, hfind2]
      | some idatPos =>
        simp [checkedSub_of_le hd, hfind, hb, checkedSub_of_le hp, hfind2]

/-- C10 witness: an empty original container aborts; a 3-byte edited
raster aborts against an original whose located chunk overruns the buffer
(abort at the chunk slice, not a typed error); a 3-byte raster against an
original with no `zTXt` signature gets the typed error; two clean
containers do not abort. -/
theorem merge_requires_eight_bytes_witness :
    merge_spritesheet pngClean [] = .panic ∧
    merge_spritesheet ([1, 2, 3] : Bytes) dmiTruncated = .panic ∧
    merge_spritesheet ([1, 2, 3] : Bytes) dmiNoMeta =
      .err "Could not find DMI metadata in the file" ∧
    merge_spritesheet pngClean dmiClean ≠ .panic :=
  ⟨(merge_requires_eight_bytes pngClean []).1 (by decide),
   (merge_requires_eight_bytes [1, 2, 3] dmiTruncated).2.1 (by decide) 8
     (by decide),
   (merge_requires_eight_bytes [1, 2, 3] dmiNoMeta).2.2.1 (by decide)
     (by decide),
   (merge_requires_eight_bytes pngClean dmiClean).2.2.2 (by decide) (by decide)
     (fun pos hp => by
        have h8 : findSig dmiClean tagZTXt (dmiClean.length - 8) = some 8 := by
          decide
        rw [h8] at hp
        have : pos = 8 := (Option.some.inj hp).symm
        subst this
        decide)⟩

end DmiMod

